import Mathlib

/-
  Verification of the kinematic trajectory container
  (`Course 2 - State Estimation/data/data.py`, class `Data`).

  The class stores six parallel sample sequences (position p, velocity v,
  acceleration a, orientation r, angular velocity w, angular acceleration
  alpha) plus timestamps t, and derives missing quantities on demand by
  numerical differentiation.  The numeric primitives live in the external
  module `data.utils` (not part of the sources): they are modelled as a
  record of abstract functions `Prims` over which all theorems quantify.

  Samples are 3-vectors of exact integers — the container logic never
  computes with sample values, it only tests their zero-ness, so any
  numeric carrier works and ℤ keeps everything kernel-evaluable at
  concrete inputs.  numpy truthiness (`arr.any()`) is
  modelled element-wise; the `np.array([None])` "unset" sentinel is
  modelled by the empty list (both are falsy under `.any()` and both
  slice to an empty sequence, the only two observable behaviours).
  Getters in Python may raise and may mutate `self` (memoization), so
  every getter is embedded as `Data → Except String Series × Data`,
  returning the possibly-updated state alongside the result.
-/

namespace CarlaData

/-- A sample: a 3-vector with exact (integer-valued) components. -/
abbrev Vec3 : Type := ℤ × ℤ × ℤ

/-- An ordered sequence of 3-vector samples (one numpy array in the source). -/
abbrev Series : Type := List Vec3

/-- A 4×4 homogeneous transform matrix (opaque payload handed to the
external transform primitives). -/
abbrev Mat4 : Type := List (List ℤ)

/-- The Python default `T` of `Data.transform`: the 4×4 identity. -/
def idMat4 : Mat4 := [[1,0,0,0],[0,1,0,0],[0,0,1,0],[0,0,0,1]]

/-- numpy `arr.any()` on a sequence of 3-vectors: true iff some scalar
element is truthy (nonzero).  The `np.array([None])` sentinel and the
empty array are both falsy, as is an all-zero array (the documented
zero-collision quirk). -/
def anyTruthy (s : Series) : Bool :=
  s.any (fun x => decide (x ≠ ((0 : ℤ), (0 : ℤ), (0 : ℤ))))

/-- Componentwise subtraction of 3-vectors. -/
def vsub (x y : Vec3) : Vec3 := (x.1 - y.1, x.2.1 - y.2.1, x.2.2 - y.2.2)

/-- Componentwise division of a 3-vector by a scalar. -/
def vdiv (x : Vec3) (c : ℤ) : Vec3 := (x.1 / c, x.2.1 / c, x.2.2 / c)

/-- The external numeric primitives consumed from `data.utils` (that module
is not among the sources, so the primitives are kept abstract; every
theorem quantifies over them).
`diff series timestamps` is the numerical derivative (same length as its
input per the external contract); `to_angular_rates euler rate` converts
one Euler-rate sample to a body-frame angular-velocity sample;
`transform_data_right`/`transform_data_left` are the two rigid-transform
composition conventions applied to a position and an orientation series. -/
structure Prims : Type where
  diff : Series → List ℤ → Series
  to_angular_rates : Vec3 → Vec3 → Vec3
  transform_data_right : Series → Series → Mat4 → Series × Series
  transform_data_left : Series → Series → Mat4 → Series × Series

/-- The state of a `Data` object: timestamps `t`, the six quantity fields,
their construction-time snapshots (`*_init`), and the `do_diff` flag. -/
structure Data : Type where
  t : List ℤ
  p : Series
  v : Series
  a : Series
  r : Series
  w : Series
  alpha : Series
  p_init : Series
  v_init : Series
  a_init : Series
  r_init : Series
  w_init : Series
  alpha_init : Series
  do_diff : Bool

/-- The `np.array([None])` default argument of the constructor. -/
def unset : Series := []

/-- `Data.__init__(t, p, v, a, w, r, alpha, do_diff)`.  The parameter order
follows the Python signature exactly (note: `w` comes BEFORE `r` there,
although the docstring lists `r` first).  Each quantity is stored twice:
in the live field and in the `_init` snapshot. -/
def Data.init (t : List ℤ) (p v a w r alpha : Series) (do_diff : Bool) : Data :=
  { t := t
    p := p, v := v, a := a, r := r, w := w, alpha := alpha
    p_init := p, v_init := v, a_init := a
    r_init := r, w_init := w, alpha_init := alpha
    do_diff := do_diff }

/-- `Data.reset`: restore the six quantities from the construction-time
snapshot; timestamps, the flag and the snapshots themselves are untouched. -/
def Data.reset (d : Data) : Data :=
  { d with p := d.p_init, r := d.r_init, v := d.v_init,
           w := d.w_init, a := d.a_init, alpha := d.alpha_init }

/-- Property getter `Data.p`: return `_p` if any element is truthy, else
raise `ValueError('No position data available.')`.  Never mutates. -/
def Data.getP (d : Data) : Except String Series × Data :=
  if anyTruthy d.p then (.ok d.p, d)
  else (.error ("No position data available."), d)

/-- Property setter `Data.p = value`. -/
def Data.setP (d : Data) (value : Series) : Data := { d with p := value }

/-- Property getter `Data.v`: return `_v` if truthy; else, when `do_diff`,
set `_v = diff(self.p, self._t)` (the `self.p` getter may raise first, in
which case nothing is assigned) and return it; else raise. -/
def Data.getV (pr : Prims) (d : Data) : Except String Series × Data :=
  if anyTruthy d.v then (.ok d.v, d)
  else if d.do_diff then
    match d.getP with
    | (.ok pval, d1) =>
        let vnew := pr.diff pval d1.t
        (.ok vnew, { d1 with v := vnew })
    | (.error err, d1) => (.error err, d1)
  else (.error ("No velocity data available"), d)

/-- Property setter `Data.v = value`. -/
def Data.setV (d : Data) (value : Series) : Data := { d with v := value }

/-- Property getter `Data.a`: like `v`, differentiating `self.v` (which may
itself cascade from `p`, caching `_v` along the way). -/
def Data.getA (pr : Prims) (d : Data) : Except String Series × Data :=
  if anyTruthy d.a then (.ok d.a, d)
  else if d.do_diff then
    match d.getV pr with
    | (.ok vval, d1) =>
        let anew := pr.diff vval d1.t
        (.ok anew, { d1 with a := anew })
    | (.error err, d1) => (.error err, d1)
  else (.error ("No acceleration data available"), d)

/-- Property setter `Data.a = value`. -/
def Data.setA (d : Data) (value : Series) : Data := { d with a := value }

/-- Property getter `Data.r`: return `_r` if truthy, else raise.  Never
mutates, never differentiates (orientation has no predecessor). -/
def Data.getR (d : Data) : Except String Series × Data :=
  if anyTruthy d.r then (.ok d.r, d)
  else (.error ("No orientation data available."), d)

/-- Property setter `Data.r = value`. -/
def Data.setR (d : Data) (value : Series) : Data := { d with r := value }

/-- The conversion loop in the `w` getter: for each index `i` into the raw
Euler-rate derivative, `_w[i] = to_angular_rates(self.r[i], _w[i])`.
`self.r` is the (already verified truthy) stored orientation, indexed at
the same `i`; the source assumes the two series have equal length, which
`zipWith` realizes sample by sample. -/
def convertRates (pr : Prims) (r wraw : Series) : Series :=
  List.zipWith (fun ri wi => pr.to_angular_rates ri wi) r wraw

/-- Property getter `Data.w`: return `_w` if truthy; else, when `do_diff`,
set `_w = diff(self.r, self._t)` and then convert every sample to
body-frame angular rates against the orientation sample at the same
index; else raise. -/
def Data.getW (pr : Prims) (d : Data) : Except String Series × Data :=
  if anyTruthy d.w then (.ok d.w, d)
  else if d.do_diff then
    match d.getR with
    | (.ok rval, d1) =>
        let wnew := convertRates pr rval (pr.diff rval d1.t)
        (.ok wnew, { d1 with w := wnew })
    | (.error err, d1) => (.error err, d1)
  else (.error ("No angular velocity data available"), d)

/-- Property setter `Data.w = value`. -/
def Data.setW (d : Data) (value : Series) : Data := { d with w := value }

/-- Property getter `Data.alpha`: like `a`, differentiating `self.w` (which
may itself cascade from `r`, caching `_w` along the way). -/
def Data.getAlpha (pr : Prims) (d : Data) : Except String Series × Data :=
  if anyTruthy d.alpha then (.ok d.alpha, d)
  else if d.do_diff then
    match d.getW pr with
    | (.ok wval, d1) =>
        let alnew := pr.diff wval d1.t
        (.ok alnew, { d1 with alpha := alnew })
    | (.error err, d1) => (.error err, d1)
  else (.error ("No angular acceleration data available"), d)

/-- Property setter `Data.alpha = value`. -/
def Data.setAlpha (d : Data) (value : Series) : Data := { d with alpha := value }

/-- `Data.transform(T, side)`: read `self.p` and `self.r` (either may
raise), transform them with the right- or left-composition primitive
(`side == "right"` selects right; anything else falls through to left),
and build a new object with `Data(self._t, p, r, do_diff=True)`.  That
constructor call is POSITIONAL: its third argument is the `v` parameter,
so the transformed orientation is stored as the new object's velocity and
the new orientation is left at the unset default. -/
def Data.transform (pr : Prims) (d : Data) (T : Mat4) (side : String) :
    Except String Data :=
  match d.getP with
  | (.error err, _) => .error err
  | (.ok pval, _) =>
    match d.getR with
    | (.error err, _) => .error err
    | (.ok rval, _) =>
      let pres := if side = ("right" : String)
        then pr.transform_data_right pval rval T
        else pr.transform_data_left pval rval T
      .ok (Data.init d.t pres.1 pres.2 unset unset unset unset true)

/-- Python sequence-slice index adjustment for one bound: negative indices
count from the end, then the bound is clamped into `[0, n]`. -/
def sliceIdx (n : Nat) (i : Int) : Nat :=
  if i < 0 then (i + n).toNat else min i.toNat n

/-- Python slicing `l[s:e]` on a sequence of length `n`: elements from
`sliceIdx n s` (inclusive) to `sliceIdx n e` (exclusive); out-of-range or
inverted bounds give short or empty results, never an error. -/
def pySlice (l : List Vec3) (s e : Int) : List Vec3 :=
  (l.take (sliceIdx l.length e)).drop (sliceIdx l.length s)

/-- `Data.slice(s, e)`: for each quantity in source order
(p, v, a, r, w, alpha), read it through its getter (which may cascade,
cache, or raise) and store back the `[s:e]` slice.  A raise propagates
with the earlier fields already replaced (the source mutates `self` as it
goes). -/
def Data.slice (pr : Prims) (d : Data) (s e : Int) : Except String Unit × Data :=
  match d.getP with
  | (.error err, d1) => (.error err, d1)
  | (.ok pval, d1) =>
  let d2 := d1.setP (pySlice pval s e)
  match d2.getV pr with
  | (.error err, d3) => (.error err, d3)
  | (.ok vval, d3) =>
  let d4 := d3.setV (pySlice vval s e)
  match d4.getA pr with
  | (.error err, d5) => (.error err, d5)
  | (.ok aval, d5) =>
  let d6 := d5.setA (pySlice aval s e)
  match d6.getR with
  | (.error err, d7) => (.error err, d7)
  | (.ok rval, d7) =>
  let d8 := d7.setR (pySlice rval s e)
  match d8.getW pr with
  | (.error err, d9) => (.error err, d9)
  | (.ok wval, d9) =>
  let d10 := d9.setW (pySlice wval s e)
  match d10.getAlpha pr with
  | (.error err, d11) => (.error err, d11)
  | (.ok alval, d11) =>
  (.ok (), d11.setAlpha (pySlice alval s e))

/-- `Data.slice()` with the Python default arguments `s = 0, e = 0`. -/
def Data.slice0 (pr : Prims) (d : Data) : Except String Unit × Data :=
  d.slice pr 0 0

/-- Modelled from the spec: `data.utils.diff` is absent from the sources;
the spec only fixes that it is a deterministic numerical derivative of the
series against the timestamps with the same length as its input.  This
forward-difference scheme (final sample padded with zero) is one such
instance, used to instantiate the abstract primitive at concrete inputs. -/
def fdDiff : Series → List ℤ → Series
  | x :: y :: srest, tx :: ty :: trest =>
      vdiv (vsub y x) (ty - tx) :: fdDiff (y :: srest) (ty :: trest)
  | _ :: [], _ => [(0, 0, 0)]
  | s, _ => s.map (fun _ => (0, 0, 0))

/-- Modelled from the spec: a concrete instantiation of the external
`data.utils` primitives (the spec leaves their numeric content external).
The two transform conventions are chosen observably distinct so that the
side-selection logic can be exercised at concrete inputs. -/
def samplePrims : Prims :=
  { diff := fdDiff
    to_angular_rates := fun rv wv => vsub wv rv
    transform_data_right := fun pv rv _ => (pv, rv)
    transform_data_left := fun pv rv _ => (rv, pv) }

/-- One post-construction interaction with the object: a property
assignment or a property read (reads may mutate via memoization; their
return value is irrelevant to the state). -/
inductive Op : Type where
  | setP (x : Series)
  | setV (x : Series)
  | setA (x : Series)
  | setR (x : Series)
  | setW (x : Series)
  | setAlpha (x : Series)
  | readP
  | readV
  | readA
  | readR
  | readW
  | readAlpha

/-- The state after performing one interaction. -/
def applyOp (pr : Prims) (d : Data) : Op → Data
  | .setP x => d.setP x
  | .setV x => d.setV x
  | .setA x => d.setA x
  | .setR x => d.setR x
  | .setW x => d.setW x
  | .setAlpha x => d.setAlpha x
  | .readP => d.getP.2
  | .readV => (d.getV pr).2
  | .readA => (d.getA pr).2
  | .readR => d.getR.2
  | .readW => (d.getW pr).2
  | .readAlpha => (d.getAlpha pr).2

/-- The state after a sequence of interactions, oldest first. -/
def applyOps (pr : Prims) (ops : List Op) (d : Data) : Data :=
  ops.foldl (applyOp pr) d

/-! Sample data objects used to instantiate the theorems at concrete
inputs. -/

/-- Position set, everything else unset, differentiation enabled. -/
def dSampleV : Data :=
  Data.init [0, 1] [(1,0,0), (3,0,0)] unset unset unset unset unset true

/-- Velocity set, everything else unset, differentiation enabled. -/
def dSampleA : Data :=
  Data.init [0, 1] unset [(1,0,0), (3,0,0)] unset unset unset unset true

/-- Orientation set, everything else unset, differentiation enabled. -/
def dSampleW : Data :=
  Data.init [0, 1] unset unset unset unset [(1,0,0), (1,0,0)] unset true

/-- Angular velocity set, everything else unset, differentiation enabled. -/
def dSampleAl : Data :=
  Data.init [0, 1] unset unset unset [(1,0,0), (3,0,0)] unset unset true

/-- Everything unset, differentiation disabled. -/
def dEmpty : Data :=
  Data.init [] unset unset unset unset unset unset false

/-! Helper lemmas about the getters. -/

/-- A getter whose stored sequence is truthy returns it unchanged. -/
theorem getV_cached (pr : Prims) (d : Data) (h : anyTruthy d.v = true) :
    d.getV pr = (.ok d.v, d) := by
  simp [Data.getV, h]

theorem getA_cached (pr : Prims) (d : Data) (h : anyTruthy d.a = true) :
    d.getA pr = (.ok d.a, d) := by
  simp [Data.getA, h]

theorem getW_cached (pr : Prims) (d : Data) (h : anyTruthy d.w = true) :
    d.getW pr = (.ok d.w, d) := by
  simp [Data.getW, h]

theorem getAlpha_cached (pr : Prims) (d : Data) (h : anyTruthy d.alpha = true) :
    d.getAlpha pr = (.ok d.alpha, d) := by
  simp [Data.getAlpha, h]

theorem getP_cached (d : Data) (h : anyTruthy d.p = true) :
    d.getP = (.ok d.p, d) := by
  simp [Data.getP, h]

theorem getR_cached (d : Data) (h : anyTruthy d.r = true) :
    d.getR = (.ok d.r, d) := by
  simp [Data.getR, h]

/-- A successful `v` read leaves `_v` holding exactly the returned value. -/
theorem getV_ok_field (pr : Prims) (d d1 : Data) (val : Series)
    (h : d.getV pr = (.ok val, d1)) : d1.v = val := by
  unfold Data.getV Data.getP at h
  by_cases hv : anyTruthy d.v
  · simp [hv] at h
    obtain ⟨h1, h2⟩ := h
    rw [← h2, h1]
  · by_cases hd : d.do_diff
    · by_cases hp : anyTruthy d.p
      · simp [hv, hd, hp] at h
        obtain ⟨h1, h2⟩ := h
        rw [← h2, h1]
      · simp [hv, hd, hp] at h
    · simp [hv, hd] at h

/-- A successful `a` read leaves `_a` holding exactly the returned value. -/
theorem getA_ok_field (pr : Prims) (d d1 : Data) (val : Series)
    (h : d.getA pr = (.ok val, d1)) : d1.a = val := by
  unfold Data.getA at h
  by_cases ha : anyTruthy d.a
  · simp [ha] at h
    obtain ⟨h1, h2⟩ := h
    rw [← h2, h1]
  · by_cases hd : d.do_diff
    · rcases hgv : d.getV pr with ⟨res, dmid⟩
      cases res with
      | ok vv =>
          rw [hgv] at h
          simp [ha, hd] at h
          obtain ⟨h1, h2⟩ := h
          rw [← h2, h1]
      | error e =>
          rw [hgv] at h
          simp [ha, hd] at h
    · simp [ha, hd] at h

/-- A successful `w` read leaves `_w` holding exactly the returned value. -/
theorem getW_ok_field (pr : Prims) (d d1 : Data) (val : Series)
    (h : d.getW pr = (.ok val, d1)) : d1.w = val := by
  unfold Data.getW Data.getR at h
  by_cases hw : anyTruthy d.w
  · simp [hw] at h
    obtain ⟨h1, h2⟩ := h
    rw [← h2, h1]
  · by_cases hd : d.do_diff
    · by_cases hr : anyTruthy d.r
      · simp [hw, hd, hr] at h
        obtain ⟨h1, h2⟩ := h
        rw [← h2, h1]
      · simp [hw, hd, hr] at h
    · simp [hw, hd] at h

/-- A successful `alpha` read leaves `_alpha` holding the returned value. -/
theorem getAlpha_ok_field (pr : Prims) (d d1 : Data) (val : Series)
    (h : d.getAlpha pr = (.ok val, d1)) : d1.alpha = val := by
  unfold Data.getAlpha at h
  by_cases ha : anyTruthy d.alpha
  · simp [ha] at h
    obtain ⟨h1, h2⟩ := h
    rw [← h2, h1]
  · by_cases hd : d.do_diff
    · rcases hgw : d.getW pr with ⟨res, dmid⟩
      cases res with
      | ok wv =>
          rw [hgw] at h
          simp [ha, hd] at h
          obtain ⟨h1, h2⟩ := h
          rw [← h2, h1]
      | error e =>
          rw [hgw] at h
          simp [ha, hd] at h
    · simp [ha, hd] at h

/-! The claims. -/

/-- C1: for every quantity with a defined predecessor (v from p, a from v,
w from r, alpha from w): if the predecessor is set, `do_diff` is true and
the quantity is unset, reading it computes `diff(predecessor, timestamps)`
(for angular velocity additionally converting each raw-derivative sample
to the body frame against the orientation sample at the same index),
caches the result and returns it. -/
theorem cascade_first_read (pr : Prims) (d : Data) :
    (anyTruthy d.p = true → d.do_diff = true → anyTruthy d.v = false →
      d.getV pr = (.ok (pr.diff d.p d.t), { d with v := pr.diff d.p d.t }))
  ∧ (anyTruthy d.v = true → d.do_diff = true → anyTruthy d.a = false →
      d.getA pr = (.ok (pr.diff d.v d.t), { d with a := pr.diff d.v d.t }))
  ∧ (anyTruthy d.r = true → d.do_diff = true → anyTruthy d.w = false →
      d.getW pr = (.ok (convertRates pr d.r (pr.diff d.r d.t)),
                   { d with w := convertRates pr d.r (pr.diff d.r d.t) }))
  ∧ (anyTruthy d.w = true → d.do_diff = true → anyTruthy d.alpha = false →
      d.getAlpha pr = (.ok (pr.diff d.w d.t), { d with alpha := pr.diff d.w d.t })) := by
  refine ⟨fun hp hd hv => ?_, fun hv hd ha => ?_, fun hr hd hw => ?_, fun hw hd hal => ?_⟩
  · simp [Data.getV, Data.getP, hp, hd, hv]
  · simp [Data.getA, Data.getV, hv, hd, ha]
  · simp [Data.getW, Data.getR, hr, hd, hw]
  · simp [Data.getAlpha, Data.getW, hw, hd, hal]

/-- Witness for C1: the four cascade conjuncts at concrete one-quantity
objects. -/
theorem cascade_first_read_witness :
    (dSampleV.getV samplePrims
       = (.ok (samplePrims.diff dSampleV.p dSampleV.t),
          { dSampleV with v := samplePrims.diff dSampleV.p dSampleV.t }))
  ∧ (dSampleA.getA samplePrims
       = (.ok (samplePrims.diff dSampleA.v dSampleA.t),
          { dSampleA with a := samplePrims.diff dSampleA.v dSampleA.t }))
  ∧ (dSampleW.getW samplePrims
       = (.ok (convertRates samplePrims dSampleW.r (samplePrims.diff dSampleW.r dSampleW.t)),
          { dSampleW with
              w := convertRates samplePrims dSampleW.r (samplePrims.diff dSampleW.r dSampleW.t) }))
  ∧ (dSampleAl.getAlpha samplePrims
       = (.ok (samplePrims.diff dSampleAl.w dSampleAl.t),
          { dSampleAl with alpha := samplePrims.diff dSampleAl.w dSampleAl.t })) :=
  ⟨(cascade_first_read samplePrims dSampleV).1 (by decide) (by decide) (by decide),
   (cascade_first_read samplePrims dSampleA).2.1 (by decide) (by decide) (by decide),
   (cascade_first_read samplePrims dSampleW).2.2.1 (by decide) (by decide) (by decide),
   (cascade_first_read samplePrims dSampleAl).2.2.2 (by decide) (by decide) (by decide)⟩

/-- C3: reading any of the six quantities while its stored sequence is
falsy raises `ValueError` naming that quantity, provided differentiation
is disabled or (for position and orientation) no predecessor exists;
the object is left unchanged and no other error is produced. -/
theorem missing_data_errors (pr : Prims) (d : Data) :
    (anyTruthy d.p = false →
      d.getP = (.error ("No position data available."), d))
  ∧ (anyTruthy d.r = false →
      d.getR = (.error ("No orientation data available."), d))
  ∧ (anyTruthy d.v = false → d.do_diff = false →
      d.getV pr = (.error ("No velocity data available"), d))
  ∧ (anyTruthy d.a = false → d.do_diff = false →
      d.getA pr = (.error ("No acceleration data available"), d))
  ∧ (anyTruthy d.w = false → d.do_diff = false →
      d.getW pr = (.error ("No angular velocity data available"), d))
  ∧ (anyTruthy d.alpha = false → d.do_diff = false →
      d.getAlpha pr = (.error ("No angular acceleration data available"), d)) := by
  refine ⟨fun h => ?_, fun h => ?_, fun h hd => ?_, fun h hd => ?_,
          fun h hd => ?_, fun h hd => ?_⟩
  · simp [Data.getP, h]
  · simp [Data.getR, h]
  · simp [Data.getV, h, hd]
  · simp [Data.getA, h, hd]
  · simp [Data.getW, h, hd]
  · simp [Data.getAlpha, h, hd]

/-- Witness for C3: all six errors on a fresh object with nothing set and
differentiation disabled. -/
theorem missing_data_errors_witness :
    (dEmpty.getP = (.error ("No position data available."), dEmpty))
  ∧ (dEmpty.getR = (.error ("No orientation data available."), dEmpty))
  ∧ (dEmpty.getV samplePrims = (.error ("No velocity data available"), dEmpty))
  ∧ (dEmpty.getA samplePrims = (.error ("No acceleration data available"), dEmpty))
  ∧ (dEmpty.getW samplePrims = (.error ("No angular velocity data available"), dEmpty))
  ∧ (dEmpty.getAlpha samplePrims
       = (.error ("No angular acceleration data available"), dEmpty)) :=
  ⟨(missing_data_errors samplePrims dEmpty).1 (by decide),
   (missing_data_errors samplePrims dEmpty).2.1 (by decide),
   (missing_data_errors samplePrims dEmpty).2.2.1 (by decide) (by decide),
   (missing_data_errors samplePrims dEmpty).2.2.2.1 (by decide) (by decide),
   (missing_data_errors samplePrims dEmpty).2.2.2.2.1 (by decide) (by decide),
   (missing_data_errors samplePrims dEmpty).2.2.2.2.2 (by decide) (by decide)⟩

/-- C7: a stored sequence that is non-empty but all-zero is treated by its
getter exactly as if unset: the getter never returns it; instead it falls
through to the differentiation cascade when one is available, and raises
otherwise. -/
theorem all_zero_treated_as_unset (pr : Prims) (d : Data) :
    (d.p ≠ [] → anyTruthy d.p = false →
      (d.getP).1 = .error ("No position data available."))
  ∧ (d.r ≠ [] → anyTruthy d.r = false →
      (d.getR).1 = .error ("No orientation data available."))
  ∧ (d.v ≠ [] → anyTruthy d.v = false →
      (d.do_diff = true → anyTruthy d.p = true →
        (d.getV pr).1 = .ok (pr.diff d.p d.t))
      ∧ (d.do_diff = false →
        (d.getV pr).1 = .error ("No velocity data available")))
  ∧ (d.a ≠ [] → anyTruthy d.a = false →
      (d.do_diff = true → anyTruthy d.v = true →
        (d.getA pr).1 = .ok (pr.diff d.v d.t))
      ∧ (d.do_diff = false →
        (d.getA pr).1 = .error ("No acceleration data available")))
  ∧ (d.w ≠ [] → anyTruthy d.w = false →
      (d.do_diff = true → anyTruthy d.r = true →
        (d.getW pr).1 = .ok (convertRates pr d.r (pr.diff d.r d.t)))
      ∧ (d.do_diff = false →
        (d.getW pr).1 = .error ("No angular velocity data available")))
  ∧ (d.alpha ≠ [] → anyTruthy d.alpha = false →
      (d.do_diff = true → anyTruthy d.w = true →
        (d.getAlpha pr).1 = .ok (pr.diff d.w d.t))
      ∧ (d.do_diff = false →
        (d.getAlpha pr).1 = .error ("No angular acceleration data available"))) := by
  refine ⟨fun _ h => ?_, fun _ h => ?_,
          fun _ h => ⟨fun hd hp => ?_, fun hd => ?_⟩,
          fun _ h => ⟨fun hd hv => ?_, fun hd => ?_⟩,
          fun _ h => ⟨fun hd hr => ?_, fun hd => ?_⟩,
          fun _ h => ⟨fun hd hw => ?_, fun hd => ?_⟩⟩
  · simp [Data.getP, h]
  · simp [Data.getR, h]
  · simp [Data.getV, Data.getP, h, hd, hp]
  · simp [Data.getV, h, hd]
  · simp [Data.getA, Data.getV, h, hd, hv]
  · simp [Data.getA, h, hd]
  · simp [Data.getW, Data.getR, h, hd, hr]
  · simp [Data.getW, h, hd]
  · simp [Data.getAlpha, Data.getW, h, hd, hw]
  · simp [Data.getAlpha, h, hd]

/-- All six fields all-zero non-empty, differentiation disabled. -/
def dZeros : Data :=
  Data.init [0, 1] [(0,0,0)] [(0,0,0)] [(0,0,0)] [(0,0,0)] [(0,0,0)] [(0,0,0)] false

/-- Velocity stored all-zero while position is set, differentiation on. -/
def dZeroV : Data :=
  Data.init [0, 1] [(1,0,0), (3,0,0)] [(0,0,0), (0,0,0)] unset unset unset unset true

/-- Acceleration stored all-zero while velocity is set, differentiation on. -/
def dZeroA : Data :=
  Data.init [0, 1] unset [(1,0,0), (3,0,0)] [(0,0,0), (0,0,0)] unset unset unset true

/-- Angular velocity stored all-zero while orientation is set. -/
def dZeroW : Data :=
  Data.init [0, 1] unset unset unset [(0,0,0), (0,0,0)] [(1,0,0), (1,0,0)] unset true

/-- Angular acceleration stored all-zero while angular velocity is set. -/
def dZeroAl : Data :=
  Data.init [0, 1] unset unset unset [(1,0,0), (3,0,0)] unset [(0,0,0), (0,0,0)] true

/-- Witness for C7: each conjunct exercised at a concrete object holding a
non-empty all-zero sequence. -/
theorem all_zero_treated_as_unset_witness :
    ((dZeros.getP).1 = .error ("No position data available."))
  ∧ ((dZeros.getR).1 = .error ("No orientation data available."))
  ∧ ((dZeroV.getV samplePrims).1 = .ok (samplePrims.diff dZeroV.p dZeroV.t))
  ∧ ((dZeros.getV samplePrims).1 = .error ("No velocity data available"))
  ∧ ((dZeroA.getA samplePrims).1 = .ok (samplePrims.diff dZeroA.v dZeroA.t))
  ∧ ((dZeros.getA samplePrims).1 = .error ("No acceleration data available"))
  ∧ ((dZeroW.getW samplePrims).1
       = .ok (convertRates samplePrims dZeroW.r (samplePrims.diff dZeroW.r dZeroW.t)))
  ∧ ((dZeros.getW samplePrims).1 = .error ("No angular velocity data available"))
  ∧ ((dZeroAl.getAlpha samplePrims).1 = .ok (samplePrims.diff dZeroAl.w dZeroAl.t))
  ∧ ((dZeros.getAlpha samplePrims).1
       = .error ("No angular acceleration data available")) :=
  ⟨(all_zero_treated_as_unset samplePrims dZeros).1 (by decide) (by decide),
   (all_zero_treated_as_unset samplePrims dZeros).2.1 (by decide) (by decide),
   ((all_zero_treated_as_unset samplePrims dZeroV).2.2.1 (by decide) (by decide)).1
     (by decide) (by decide),
   ((all_zero_treated_as_unset samplePrims dZeros).2.2.1 (by decide) (by decide)).2
     (by decide),
   ((all_zero_treated_as_unset samplePrims dZeroA).2.2.2.1 (by decide) (by decide)).1
     (by decide) (by decide),
   ((all_zero_treated_as_unset samplePrims dZeros).2.2.2.1 (by decide) (by decide)).2
     (by decide),
   ((all_zero_treated_as_unset samplePrims dZeroW).2.2.2.2.1 (by decide) (by decide)).1
     (by decide) (by decide),
   ((all_zero_treated_as_unset samplePrims dZeros).2.2.2.2.1 (by decide) (by decide)).2
     (by decide),
   ((all_zero_treated_as_unset samplePrims dZeroAl).2.2.2.2.2 (by decide) (by decide)).1
     (by decide) (by decide),
   ((all_zero_treated_as_unset samplePrims dZeros).2.2.2.2.2 (by decide) (by decide)).2
     (by decide)⟩

/-- C8: the `side` argument of `transform` recognizes exactly two
conventions: the value "right" selects the right-multiplication
primitive, and every other value falls through to the left-multiplication
primitive. -/
theorem transform_side_selection (pr : Prims) (d : Data) (T : Mat4) (side : String) :
    anyTruthy d.p = true → anyTruthy d.r = true →
    (side ≠ ("right" : String) →
       d.transform pr T side
         = .ok (Data.init d.t (pr.transform_data_left d.p d.r T).1
                  (pr.transform_data_left d.p d.r T).2 unset unset unset unset true))
  ∧ (side = ("right" : String) →
       d.transform pr T side
         = .ok (Data.init d.t (pr.transform_data_right d.p d.r T).1
                  (pr.transform_data_right d.p d.r T).2 unset unset unset unset true)) := by
  intro hp hr
  refine ⟨fun hs => ?_, fun hs => ?_⟩
  · simp [Data.transform, Data.getP, Data.getR, hp, hr, hs]
  · simp [Data.transform, Data.getP, Data.getR, hp, hr, hs]

/-- Position and orientation set, used for the transform claims. -/
def dPose : Data :=
  Data.init [0, 1] [(1,0,0), (2,0,0)] unset unset unset [(0,0,1), (0,0,2)] unset false

/-- Witness for C8: an unrecognized side value ("up") takes the left
branch, "right" takes the right branch, at a concrete object. -/
theorem transform_side_selection_witness :
    (dPose.transform samplePrims idMat4 ("up")
       = .ok (Data.init dPose.t
                (samplePrims.transform_data_left dPose.p dPose.r idMat4).1
                (samplePrims.transform_data_left dPose.p dPose.r idMat4).2
                unset unset unset unset true))
  ∧ (dPose.transform samplePrims idMat4 ("right")
       = .ok (Data.init dPose.t
                (samplePrims.transform_data_right dPose.p dPose.r idMat4).1
                (samplePrims.transform_data_right dPose.p dPose.r idMat4).2
                unset unset unset unset true)) :=
  ⟨((transform_side_selection samplePrims dPose idMat4 ("up"))
      (by decide) (by decide)).1 (by decide),
   ((transform_side_selection samplePrims dPose idMat4 ("right"))
      (by decide) (by decide)).2 rfl⟩

/-- C9: getters are atomic on failure: whenever a read returns an error
(including errors discovered transitively while fetching a predecessor),
the object state — all six stored sequences, the snapshots, the
timestamps and the flag — is exactly what it was before the read. -/
theorem getter_error_atomic (pr : Prims) (d : Data) (err : String) :
    ((d.getP).1 = .error err → (d.getP).2 = d)
  ∧ ((d.getR).1 = .error err → (d.getR).2 = d)
  ∧ ((d.getV pr).1 = .error err → (d.getV pr).2 = d)
  ∧ ((d.getA pr).1 = .error err → (d.getA pr).2 = d)
  ∧ ((d.getW pr).1 = .error err → (d.getW pr).2 = d)
  ∧ ((d.getAlpha pr).1 = .error err → (d.getAlpha pr).2 = d) := by
  have hP : ∀ e : String, (d.getP).1 = .error e → (d.getP).2 = d := by
    intro e h
    unfold Data.getP at h ⊢
    by_cases hp : anyTruthy d.p <;> simp [hp] at h ⊢
  have hR : ∀ e : String, (d.getR).1 = .error e → (d.getR).2 = d := by
    intro e h
    unfold Data.getR at h ⊢
    by_cases hr : anyTruthy d.r <;> simp [hr] at h ⊢
  have hV : ∀ e : String, (d.getV pr).1 = .error e → (d.getV pr).2 = d := by
    intro e h
    unfold Data.getV Data.getP at h ⊢
    by_cases hv : anyTruthy d.v
    · simp [hv] at h
    · by_cases hd : d.do_diff
      · by_cases hp : anyTruthy d.p <;> simp [hv, hd, hp] at h ⊢
      · simp [hv, hd]
  have hW : ∀ e : String, (d.getW pr).1 = .error e → (d.getW pr).2 = d := by
    intro e h
    unfold Data.getW Data.getR at h ⊢
    by_cases hw : anyTruthy d.w
    · simp [hw] at h
    · by_cases hd : d.do_diff
      · by_cases hr : anyTruthy d.r <;> simp [hw, hd, hr] at h ⊢
      · simp [hw, hd]
  refine ⟨hP err, hR err, hV err, ?_, hW err, ?_⟩
  · intro h
    unfold Data.getA at h ⊢
    by_cases ha : anyTruthy d.a
    · simp [ha] at h
    · by_cases hd : d.do_diff
      · rcases hgv : d.getV pr with ⟨res, dmid⟩
        cases res with
        | ok vv => rw [hgv] at h; simp [ha, hd] at h
        | error e =>
            simp [ha, hd]
            have hmid := hV e (by rw [hgv])
            rw [hgv] at hmid
            exact hmid
      · simp [ha, hd]
  · intro h
    unfold Data.getAlpha at h ⊢
    by_cases ha : anyTruthy d.alpha
    · simp [ha] at h
    · by_cases hd : d.do_diff
      · rcases hgw : d.getW pr with ⟨res, dmid⟩
        cases res with
        | ok wv => rw [hgw] at h; simp [ha, hd] at h
        | error e =>
            simp [ha, hd]
            have hmid := hW e (by rw [hgw])
            rw [hgw] at hmid
            exact hmid
      · simp [ha, hd]

/-- Everything unset but differentiation ENABLED: alpha's read then fails
transitively (alpha needs w, w needs r, r is unset). -/
def dEmptyDiff : Data :=
  Data.init [0, 1] unset unset unset unset unset unset true

/-- Witness for C9: erroring reads leave the object untouched, both for
direct failures (diff disabled) and for a transitive cascade failure. -/
theorem getter_error_atomic_witness :
    ((dEmpty.getP).2 = dEmpty)
  ∧ ((dEmpty.getR).2 = dEmpty)
  ∧ ((dEmpty.getV samplePrims).2 = dEmpty)
  ∧ ((dEmpty.getA samplePrims).2 = dEmpty)
  ∧ ((dEmpty.getW samplePrims).2 = dEmpty)
  ∧ ((dEmpty.getAlpha samplePrims).2 = dEmpty)
  ∧ ((dEmptyDiff.getAlpha samplePrims).2 = dEmptyDiff) :=
  ⟨(getter_error_atomic samplePrims dEmpty ("No position data available.")).1 rfl,
   (getter_error_atomic samplePrims dEmpty ("No orientation data available.")).2.1 rfl,
   (getter_error_atomic samplePrims dEmpty ("No velocity data available")).2.2.1 rfl,
   (getter_error_atomic samplePrims dEmpty ("No acceleration data available")).2.2.2.1 rfl,
   (getter_error_atomic samplePrims dEmpty
      ("No angular velocity data available")).2.2.2.2.1 rfl,
   (getter_error_atomic samplePrims dEmpty
      ("No angular acceleration data available")).2.2.2.2.2 rfl,
   (getter_error_atomic samplePrims dEmptyDiff
      ("No orientation data available.")).2.2.2.2.2 rfl⟩

/-- C2 (amended): once a quantity has been read successfully, a second
read returns the identical value and leaves the state unchanged even
after the predecessor is mutated — PROVIDED the value obtained at the
first read has a truthy element.  (An all-zero derived value fails the
`.any()` cache test and is recomputed; see the counterexample.) -/
theorem cached_read_stable (pr : Prims) (d d1 : Data) (val q : Series) :
    (d.getV pr = (.ok val, d1) → anyTruthy val = true →
       (d1.setP q).getV pr = (.ok val, d1.setP q))
  ∧ (d.getA pr = (.ok val, d1) → anyTruthy val = true →
       (d1.setV q).getA pr = (.ok val, d1.setV q))
  ∧ (d.getW pr = (.ok val, d1) → anyTruthy val = true →
       (d1.setR q).getW pr = (.ok val, d1.setR q))
  ∧ (d.getAlpha pr = (.ok val, d1) → anyTruthy val = true →
       (d1.setW q).getAlpha pr = (.ok val, d1.setW q)) := by
  refine ⟨fun h hval => ?_, fun h hval => ?_, fun h hval => ?_, fun h hval => ?_⟩
  · have hfield : (d1.setP q).v = val := by
      simp [Data.setP, getV_ok_field pr d d1 val h]
    rw [getV_cached pr (d1.setP q) (by rw [hfield]; exact hval), hfield]
  · have hfield : (d1.setV q).a = val := by
      simp [Data.setV, getA_ok_field pr d d1 val h]
    rw [getA_cached pr (d1.setV q) (by rw [hfield]; exact hval), hfield]
  · have hfield : (d1.setR q).w = val := by
      simp [Data.setR, getW_ok_field pr d d1 val h]
    rw [getW_cached pr (d1.setR q) (by rw [hfield]; exact hval), hfield]
  · have hfield : (d1.setW q).alpha = val := by
      simp [Data.setW, getAlpha_ok_field pr d d1 val h]
    rw [getAlpha_cached pr (d1.setW q) (by rw [hfield]; exact hval), hfield]

/-- A trajectory whose position is constant, so the derived velocity is
an all-zero sequence. -/
def dConstP : Data :=
  Data.init [0, 1] [(1,0,0), (1,0,0)] unset unset unset unset unset true

/-- The state after reading `v` on `dConstP` and then mutating the
position to a non-constant series. -/
def dConstPAfter : Data :=
  ((dConstP.getV samplePrims).2).setP [(0,0,0), (2,0,0)]

/-- Counterexample for C2 as stated: reading `v` of a constant-position
trajectory derives and caches the all-zero sequence; after the position
is mutated, a second read does NOT return the cached value but
recomputes a different one (the all-zero cache fails the `.any()` test). -/
theorem cached_read_counterexample :
    (dConstP.getV samplePrims).1 = .ok [(0,0,0), (0,0,0)]
  ∧ (dConstPAfter.getV samplePrims).1 = .ok [(2,0,0), (0,0,0)]
  ∧ ([(2,0,0), (0,0,0)] : Series) ≠ [(0,0,0), (0,0,0)] :=
  ⟨rfl, rfl, by decide⟩

/-- Witness for C2: a first read whose value is truthy survives a
predecessor mutation. -/
theorem cached_read_stable_witness :
    ((({ dSampleV with v := samplePrims.diff dSampleV.p dSampleV.t }).setP
        [(9,9,9), (0,0,0)]).getV samplePrims
      = (.ok (samplePrims.diff dSampleV.p dSampleV.t),
         ({ dSampleV with v := samplePrims.diff dSampleV.p dSampleV.t }).setP
           [(9,9,9), (0,0,0)])) :=
  (cached_read_stable samplePrims dSampleV
      { dSampleV with v := samplePrims.diff dSampleV.p dSampleV.t }
      (samplePrims.diff dSampleV.p dSampleV.t) [(9,9,9), (0,0,0)]).1
    (by rw [(cascade_first_read samplePrims dSampleV).1 (by decide) (by decide) (by decide)])
    (by decide)

/-- The part of the state that neither getters nor setters may touch:
timestamps, the flag and the six construction-time snapshots. -/
def coreEq (x y : Data) : Prop :=
  x.t = y.t ∧ x.do_diff = y.do_diff ∧ x.p_init = y.p_init ∧ x.v_init = y.v_init ∧
  x.a_init = y.a_init ∧ x.r_init = y.r_init ∧ x.w_init = y.w_init ∧
  x.alpha_init = y.alpha_init

theorem coreEq_trans {x y z : Data} (h1 : coreEq x y) (h2 : coreEq y z) : coreEq x z := by
  obtain ⟨a1, a2, a3, a4, a5, a6, a7, a8⟩ := h1
  obtain ⟨b1, b2, b3, b4, b5, b6, b7, b8⟩ := h2
  exact ⟨a1.trans b1, a2.trans b2, a3.trans b3, a4.trans b4,
         a5.trans b5, a6.trans b6, a7.trans b7, a8.trans b8⟩

theorem getP_snd_coreEq (d : Data) : coreEq d.getP.2 d := by
  unfold Data.getP
  by_cases hp : anyTruthy d.p <;> simp [hp, coreEq]

theorem getR_snd_coreEq (d : Data) : coreEq d.getR.2 d := by
  unfold Data.getR
  by_cases hr : anyTruthy d.r <;> simp [hr, coreEq]

theorem getV_snd_coreEq (pr : Prims) (d : Data) : coreEq (d.getV pr).2 d := by
  unfold Data.getV Data.getP
  by_cases hv : anyTruthy d.v
  · simp [hv, coreEq]
  · by_cases hd : d.do_diff
    · by_cases hp : anyTruthy d.p <;> simp [hv, hd, hp, coreEq]
    · simp [hv, hd, coreEq]

theorem getW_snd_coreEq (pr : Prims) (d : Data) : coreEq (d.getW pr).2 d := by
  unfold Data.getW Data.getR
  by_cases hw : anyTruthy d.w
  · simp [hw, coreEq]
  · by_cases hd : d.do_diff
    · by_cases hr : anyTruthy d.r <;> simp [hw, hd, hr, coreEq]
    · simp [hw, hd, coreEq]

theorem getA_snd_coreEq (pr : Prims) (d : Data) : coreEq (d.getA pr).2 d := by
  unfold Data.getA
  by_cases ha : anyTruthy d.a
  · simp [ha, coreEq]
  · by_cases hd : d.do_diff
    · have hmid := getV_snd_coreEq pr d
      rcases hgv : d.getV pr with ⟨res, dmid⟩
      rw [hgv] at hmid
      cases res with
      | ok vv =>
          simp only [ha, hd]
          simp
          exact coreEq_trans (by simp [coreEq]) hmid
      | error e =>
          simp only [ha, hd]
          simp
          exact hmid
    · simp [ha, hd, coreEq]

theorem getAlpha_snd_coreEq (pr : Prims) (d : Data) : coreEq (d.getAlpha pr).2 d := by
  unfold Data.getAlpha
  by_cases ha : anyTruthy d.alpha
  · simp [ha, coreEq]
  · by_cases hd : d.do_diff
    · have hmid := getW_snd_coreEq pr d
      rcases hgw : d.getW pr with ⟨res, dmid⟩
      rw [hgw] at hmid
      cases res with
      | ok wv =>
          simp only [ha, hd]
          simp
          exact coreEq_trans (by simp [coreEq]) hmid
      | error e =>
          simp only [ha, hd]
          simp
          exact hmid
    · simp [ha, hd, coreEq]

theorem applyOp_coreEq (pr : Prims) (d : Data) (op : Op) :
    coreEq (applyOp pr d op) d := by
  cases op with
  | setP x => simp [applyOp, Data.setP, coreEq]
  | setV x => simp [applyOp, Data.setV, coreEq]
  | setA x => simp [applyOp, Data.setA, coreEq]
  | setR x => simp [applyOp, Data.setR, coreEq]
  | setW x => simp [applyOp, Data.setW, coreEq]
  | setAlpha x => simp [applyOp, Data.setAlpha, coreEq]
  | readP => exact getP_snd_coreEq d
  | readV => exact getV_snd_coreEq pr d
  | readA => exact getA_snd_coreEq pr d
  | readR => exact getR_snd_coreEq d
  | readW => exact getW_snd_coreEq pr d
  | readAlpha => exact getAlpha_snd_coreEq pr d

theorem applyOps_coreEq (pr : Prims) (ops : List Op) (d : Data) :
    coreEq (applyOps pr ops d) d := by
  induction ops generalizing d with
  | nil => simp [applyOps, coreEq]
  | cons op rest ih =>
      have h1 : applyOps pr (op :: rest) d = applyOps pr rest (applyOp pr d op) := rfl
      rw [h1]
      exact coreEq_trans (ih (applyOp pr d op)) (applyOp_coreEq pr d op)

/-- C5: after any sequence of property assignments and (possibly caching)
property reads performed after construction, `reset()` restores all six
quantity fields exactly to their construction-time values, and leaves the
timestamps and the `do_diff` flag of the object unchanged. -/
theorem reset_restores (pr : Prims) (t : List ℤ) (p v a w r al : Series)
    (df : Bool) (ops : List Op) :
    ((applyOps pr ops (Data.init t p v a w r al df)).reset.p = p)
  ∧ ((applyOps pr ops (Data.init t p v a w r al df)).reset.v = v)
  ∧ ((applyOps pr ops (Data.init t p v a w r al df)).reset.a = a)
  ∧ ((applyOps pr ops (Data.init t p v a w r al df)).reset.r = r)
  ∧ ((applyOps pr ops (Data.init t p v a w r al df)).reset.w = w)
  ∧ ((applyOps pr ops (Data.init t p v a w r al df)).reset.alpha = al)
  ∧ ((applyOps pr ops (Data.init t p v a w r al df)).reset.t
       = (applyOps pr ops (Data.init t p v a w r al df)).t)
  ∧ ((applyOps pr ops (Data.init t p v a w r al df)).reset.do_diff
       = (applyOps pr ops (Data.init t p v a w r al df)).do_diff) := by
  have hc := applyOps_coreEq pr ops (Data.init t p v a w r al df)
  obtain ⟨h1, h2, h3, h4, h5, h6, h7, h8⟩ := hc
  refine ⟨?_, ?_, ?_, ?_, ?_, ?_, rfl, rfl⟩
  · rw [Data.reset]; exact h3
  · rw [Data.reset]; exact h4
  · rw [Data.reset]; exact h5
  · rw [Data.reset]; exact h6
  · rw [Data.reset]; exact h7
  · rw [Data.reset]; exact h8

/-- C4 (exhibit of the defect): `transform` builds the result with the
POSITIONAL call `Data(self._t, p, r, do_diff=True)`, whose third
parameter is the velocity.  At a concrete object with position and
orientation set, `transform(identity, "right")` therefore returns an
object whose position is the transformed position but whose VELOCITY
holds the transformed orientation, whose orientation is the unset
default, and whose orientation read raises — contradicting the claim
that the result's orientation equals the original's. -/
theorem transform_misassigns_orientation :
    dPose.transform samplePrims idMat4 ("right")
      = .ok (Data.init dPose.t dPose.p dPose.r unset unset unset unset true)
  ∧ (Data.init dPose.t dPose.p dPose.r unset unset unset unset true).p = dPose.p
  ∧ (Data.init dPose.t dPose.p dPose.r unset unset unset unset true).v = dPose.r
  ∧ (Data.init dPose.t dPose.p dPose.r unset unset unset unset true).r = unset
  ∧ (Data.init dPose.t dPose.p dPose.r unset unset unset unset true).t = dPose.t
  ∧ (Data.init dPose.t dPose.p dPose.r unset unset unset unset true).do_diff = true
  ∧ ((Data.init dPose.t dPose.p dPose.r unset unset unset unset true).getR).1
      = .error ("No orientation data available.") :=
  ⟨rfl, rfl, rfl, rfl, rfl, rfl, rfl⟩

/-- With every field truthy, `slice` replaces each of the six sequences by
its `[s:e]` Python slice and succeeds. -/
theorem slice_all_cached (pr : Prims) (d : Data) (s e : Int)
    (hp : anyTruthy d.p = true) (hv : anyTruthy d.v = true)
    (ha : anyTruthy d.a = true) (hr : anyTruthy d.r = true)
    (hw : anyTruthy d.w = true) (hal : anyTruthy d.alpha = true) :
    d.slice pr s e
      = (.ok (),
         { d with
             p := pySlice d.p s e, v := pySlice d.v s e,
             a := pySlice d.a s e, r := pySlice d.r s e,
             w := pySlice d.w s e, alpha := pySlice d.alpha s e }) := by
  simp [Data.slice, Data.getP, Data.getV, Data.getA, Data.getR, Data.getW,
        Data.getAlpha, Data.setP, Data.setV, Data.setA, Data.setR, Data.setW,
        Data.setAlpha, hp, hv, ha, hr, hw, hal]

/-- For nonnegative bounds, the Python slice has the clamped length
`max 0 (min e n - max s 0)`. -/
theorem pySlice_length (l : List Vec3) (s e : Int) (hs : 0 ≤ s) (he : 0 ≤ e) :
    ((pySlice l s e).length : Int) = max 0 (min e (l.length : Int) - max s 0) := by
  have hs' : ¬ s < 0 := not_lt.mpr hs
  have he' : ¬ e < 0 := not_lt.mpr he
  simp only [pySlice, sliceIdx, hs', he', if_false, List.length_drop,
             List.length_take]
  omega

/-- For a nonnegative start, element `j` of the Python slice is element
`s + j` of the unsliced sequence. -/
theorem pySlice_getD (l : List Vec3) (s e : Int) (hs : 0 ≤ s) (j : Nat)
    (hj : j < (pySlice l s e).length) :
    (pySlice l s e).getD j (0, 0, 0) = l.getD (s.toNat + j) (0, 0, 0) := by
  have hs' : ¬ s < 0 := not_lt.mpr hs
  have hsidx : sliceIdx l.length s = min s.toNat l.length := by
    simp [sliceIdx, hs']
  have htake : (l.take (sliceIdx l.length e)).length ≤ sliceIdx l.length e :=
    List.length_take_le _ _
  have hle : (l.take (sliceIdx l.length e)).length ≤ l.length := by
    rw [List.length_take]
    exact min_le_right _ _
  have hdrop : j < (l.take (sliceIdx l.length e)).length - sliceIdx l.length s := by
    have h0 := hj
    unfold pySlice at h0
    rwa [List.length_drop] at h0
  have hisn : sliceIdx l.length s = s.toNat := by
    rw [hsidx] at hdrop ⊢
    omega
  have hin : sliceIdx l.length s + j < sliceIdx l.length e := by omega
  have h1 : (pySlice l s e).getD j (0, 0, 0)
      = (((l.take (sliceIdx l.length e)).drop (sliceIdx l.length s)).get? j).getD
          (0, 0, 0) := rfl
  rw [h1, List.get?_drop, List.get?_take hin, hisn]
  rfl

/-- The Python slice `l[0:0]` is always empty. -/
theorem pySlice_zero (l : List Vec3) : pySlice l 0 0 = [] := by
  simp [pySlice, sliceIdx]

/-- C6 (amended): for NONNEGATIVE bounds on a trajectory whose six
quantities are all stored truthy, `slice(s, e)` succeeds and truncates
each field in place to `[s:e]`; any sequence of length N so sliced has
length `max 0 (min e N - max s 0)` and its element `j` is element
`max(s,0)+j` of the unsliced sequence.  (Negative bounds follow Python's
from-the-end convention instead, and quantities realized during the
slice are derived from the already-truncated predecessor — see the
counterexample.) -/
theorem slice_clamps (pr : Prims) (d : Data) (s e : Int) (N : Nat)
    (hs : 0 ≤ s) (he : 0 ≤ e)
    (hp : anyTruthy d.p = true) (hv : anyTruthy d.v = true)
    (ha : anyTruthy d.a = true) (hr : anyTruthy d.r = true)
    (hw : anyTruthy d.w = true) (hal : anyTruthy d.alpha = true) :
    (d.slice pr s e
       = (.ok (),
          { d with
              p := pySlice d.p s e, v := pySlice d.v s e,
              a := pySlice d.a s e, r := pySlice d.r s e,
              w := pySlice d.w s e, alpha := pySlice d.alpha s e }))
  ∧ ∀ l : Series, l.length = N →
      (((pySlice l s e).length : Int) = max 0 (min e (N : Int) - max s 0)
       ∧ ∀ j : Nat, j < (pySlice l s e).length →
           (pySlice l s e).getD j (0, 0, 0)
             = l.getD ((max s 0).toNat + j) (0, 0, 0)) := by
  refine ⟨slice_all_cached pr d s e hp hv ha hr hw hal, fun l hl => ⟨?_, fun j hj => ?_⟩⟩
  · rw [pySlice_length l s e hs he, hl]
  · rw [pySlice_getD l s e hs j hj, max_eq_left hs]

/-- All six quantities stored truthy with two samples each. -/
def dSix : Data :=
  Data.init [0, 1] [(1,0,0), (2,0,0)] [(3,0,0), (4,0,0)] [(5,0,0), (6,0,0)]
    [(7,0,0), (8,0,0)] [(9,0,0), (10,0,0)] [(11,0,0), (12,0,0)] false

/-- Witness for C6: slicing `dSix` to `[1:2]`, with the length and element
characterizations instantiated at its position series. -/
theorem slice_clamps_witness :
    (dSix.slice samplePrims 1 2
       = (.ok (),
          { dSix with
              p := pySlice dSix.p 1 2, v := pySlice dSix.v 1 2,
              a := pySlice dSix.a 1 2, r := pySlice dSix.r 1 2,
              w := pySlice dSix.w 1 2, alpha := pySlice dSix.alpha 1 2 }))
  ∧ (((pySlice dSix.p 1 2).length : Int) = max 0 (min 2 ((2 : Nat) : Int) - max 1 0))
  ∧ ((pySlice dSix.p 1 2).getD 0 (0, 0, 0)
       = dSix.p.getD ((max (1 : Int) 0).toNat + 0) (0, 0, 0)) :=
  ⟨(slice_clamps samplePrims dSix 1 2 2 (by decide) (by decide) (by decide)
      (by decide) (by decide) (by decide) (by decide) (by decide)).1,
   ((slice_clamps samplePrims dSix 1 2 2 (by decide) (by decide) (by decide)
      (by decide) (by decide) (by decide) (by decide) (by decide)).2 dSix.p rfl).1,
   ((slice_clamps samplePrims dSix 1 2 2 (by decide) (by decide) (by decide)
      (by decide) (by decide) (by decide) (by decide) (by decide)).2 dSix.p rfl).2
     0 (by decide)⟩

/-- Velocity unset but derivable (position set, `do_diff` on), every other
quantity stored truthy with three samples. -/
def dSixB : Data :=
  Data.init [0, 1, 2] [(1,0,0), (3,0,0), (7,0,0)] unset
    [(1,0,0), (1,0,0), (1,0,0)] [(1,0,0), (1,0,0), (1,0,0)]
    [(1,0,0), (1,0,0), (1,0,0)] [(1,0,0), (1,0,0), (1,0,0)] true

/-- Counterexample for C6 as stated ("all integers s, e", fields "set or
derivable"): (a) with a negative start on a 2-sample trajectory the
sliced field has 1 element where the claimed formula gives 2; (b) with a
derivable velocity, slicing `[1:3]` yields a 1-element velocity where the
claimed formula gives 2 (the velocity is differentiated from the
already-truncated position and then truncated again). -/
theorem slice_claim_counterexample :
    ((dSix.slice samplePrims (-1) 2).1 = .ok ()
      ∧ ((dSix.slice samplePrims (-1) 2).2.p.length : Int) = 1
      ∧ max 0 (min 2 ((2 : Nat) : Int) - max (-1) 0) = 2)
  ∧ ((dSixB.slice samplePrims 1 3).1 = .ok ()
      ∧ (samplePrims.diff dSixB.p dSixB.t).length = 3
      ∧ ((dSixB.slice samplePrims 1 3).2.v.length : Int) = 1
      ∧ max 0 (min 3 ((3 : Nat) : Int) - max 1 0) = 2) :=
  ⟨⟨rfl, by decide, by decide⟩, ⟨rfl, by decide, by decide, by decide⟩⟩

/-- C10 (amended): `slice()` defaults to `s = 0, e = 0`; on a trajectory
whose six quantities are all stored truthy it succeeds and replaces all
six sequences by empty ones.  (With a merely derivable quantity the call
raises instead, because the predecessor is truncated to empty before the
derivation runs — see the counterexample.) -/
theorem slice_default_empties (pr : Prims) (d : Data)
    (hp : anyTruthy d.p = true) (hv : anyTruthy d.v = true)
    (ha : anyTruthy d.a = true) (hr : anyTruthy d.r = true)
    (hw : anyTruthy d.w = true) (hal : anyTruthy d.alpha = true) :
    d.slice0 pr
      = (.ok (),
         { d with
             p := [], v := [], a := [], r := [], w := [], alpha := [] }) := by
  rw [Data.slice0, slice_all_cached pr d 0 0 hp hv ha hr hw hal]
  simp only [pySlice_zero]

/-- Witness for C10: emptying all six stored sequences of `dSix`. -/
theorem slice_default_empties_witness :
    dSix.slice0 samplePrims
      = (.ok (),
         { dSix with
             p := [], v := [], a := [], r := [], w := [], alpha := [] }) :=
  slice_default_empties samplePrims dSix (by decide) (by decide) (by decide)
    (by decide) (by decide) (by decide)

/-- Position and orientation set, the other four unset but derivable
(`do_diff` on). -/
def dDeriv : Data :=
  Data.init [0, 1] [(1,0,0), (3,0,0)] unset unset unset [(1,0,0), (1,0,0)]
    unset true

/-- Counterexample for C10 as stated: on `dDeriv` every quantity is set or
derivable (all six reads succeed), yet `slice()` raises instead of
emptying the fields — the position is truncated to empty before the
velocity derivation reads it. -/
theorem slice_default_counterexample :
    ((dDeriv.getP).1 = .ok [(1,0,0), (3,0,0)])
  ∧ ((dDeriv.getV samplePrims).1 = .ok [(2,0,0), (0,0,0)])
  ∧ ((dDeriv.getA samplePrims).1 = .ok [(-2,0,0), (0,0,0)])
  ∧ ((dDeriv.getR).1 = .ok [(1,0,0), (1,0,0)])
  ∧ ((dDeriv.getW samplePrims).1 = .ok [(-1,0,0), (-1,0,0)])
  ∧ ((dDeriv.getAlpha samplePrims).1 = .ok [(0,0,0), (0,0,0)])
  ∧ (dDeriv.slice0 samplePrims).1 = .error ("No position data available.") :=
  ⟨rfl, rfl, rfl, rfl, rfl, rfl, rfl⟩

end CarlaData
